import Mathlib

/-!
Verification development for the Orbital-Transfer-Backend repository.

The embedding below translates the core of the repository into Lean:

* `Body`, `OrbitBase` with its constructor and property setters
  (src/app/schemas/orbits/orbit_base.py),
* `Point` and `Trajectory` (src/app/schemas/trajectory_base.py),
* `func_calculate_transfer` (src/utils/hohmann/func/calculate_transfer.py),
* `HohmannTransfer.calculate_transfer` (src/utils/hohmann/hohmann_transfer.py).

Modelling conventions:

* Scalar orbit data (altitudes, angles, mu) travels through the Python code
  as float-valued quantities; every branch condition in the source compares
  such scalars.  The embedding stores these inputs as rationals, so all
  branch conditions remain decidable, and performs the kinematic output
  arithmetic (square roots, pi, trigonometry) over the reals.
* Python exceptions are modelled with `Except`.  The error constructors are
  named after the error taxonomy of the specification; a comment at each
  raise site records the concrete Python exception the source raises there.
* The identity generator (`secrets`-based ids) is modelled by an explicit
  id argument; the cached poliastro orbit, plotting, serialization and
  logging are external effects outside the computational core and are not
  modelled.  The `Point.time` field is produced by the source as the string
  label interpolating the elapsed duration in hours
  (`time=f"T+\x7b(time_of_flight.value * i / sample_value):.2fh\x7d"`);
  the embedding keeps the interpolated numeric value itself.
-/

namespace OrbitalTransfer

/-- Error taxonomy of the specification.  Each constructor corresponds to a
raise site of the source: `invalidOrbit` to the ValueError raised by
`OrbitBase.__init__`, `incompatiblePlane` to the ValueError raised by the
coplanarity check of `HohmannTransfer.calculate_transfer`, and
`transferComputation` to the RuntimeError produced by the catch-all
`except Exception` clause of `func_calculate_transfer`. -/
inductive SpecError where
  | invalidOrbit
  | incompatiblePlane
  | unsupportedTransferType
  | invalidSampleCount
  | transferComputation
deriving DecidableEq, Repr

/-- Central body (src/app/schemas/bodies/body.py): the transfer engine only
reads the gravitational parameter `mu` (km^3/s^2); `radius` (km) is carried
for completeness and never used by the transfer computation. -/
structure Body where
  mu : ℚ
  radius : ℚ
deriving DecidableEq, Repr

/-- Modelled from the spec: the Earth body class
(src/app/schemas/bodies/earth.py) is imported by the source but its file is
not present under src/.  Scenario A of the specification fixes its
gravitational parameter: mu = 398600.4418 km^3/s^2; the mean radius
6378.137 km is the conventional Earth value and is unused by the engine. -/
def earth : Body :=
  { mu := 3986004418 / 10000, radius := 6378137 / 1000 }

/-- Orbit data model (src/app/schemas/orbits/orbit_base.py).  The fields
`semi_major_axis` and `eccentricity` mirror the private attributes
`_semi_major_axis` and `_eccentricity`, which are assigned once inside
`__init__`. -/
structure OrbitBase where
  altitude_perigee : ℚ
  altitude_apogee : ℚ
  inclination : ℚ
  raan : ℚ
  argp : ℚ
  nu : ℚ
  central_body : Body
  id : ℕ
  semi_major_axis : ℚ
  eccentricity : ℚ
deriving DecidableEq, Repr

/-- Constructor `OrbitBase.__init__` (orbit_base.py, lines 32-74): raises
ValueError ("The perigee must be strictly lower than the apogee.") when
`altitude_perigee > altitude_apogee`, otherwise stores the fields and
computes the derived `semi_major_axis` and `eccentricity`.  No other
validation is performed by the constructor. -/
def OrbitBase.create (altitude_perigee altitude_apogee inclination raan argp nu : ℚ)
    (central_body : Body) (id : ℕ) : Except SpecError OrbitBase :=
  if altitude_apogee < altitude_perigee then
    .error .invalidOrbit
  else
    .ok { altitude_perigee := altitude_perigee
        , altitude_apogee := altitude_apogee
        , inclination := inclination
        , raan := raan
        , argp := argp
        , nu := nu
        , central_body := central_body
        , id := id
        , semi_major_axis := (altitude_perigee + altitude_apogee) / 2
        , eccentricity :=
            (altitude_apogee - altitude_perigee) / (altitude_apogee + altitude_perigee) }

/-- Setter `OrbitBase.altitude_perigee` (orbit_base.py, lines 99-102): it
stores the new value and refreshes the cached poliastro orbit, which is
rebuilt from the stored `semi_major_axis` and `eccentricity` fields; the
setter does not recompute those two fields. -/
def OrbitBase.set_altitude_perigee (o : OrbitBase) (v : ℚ) : OrbitBase :=
  { o with altitude_perigee := v }

/-- Setter `OrbitBase.altitude_apogee` (orbit_base.py, lines 90-93): it
stores the new value and refreshes the cached poliastro orbit, which is
rebuilt from the stored `semi_major_axis` and `eccentricity` fields; the
setter does not recompute those two fields. -/
def OrbitBase.set_altitude_apogee (o : OrbitBase) (v : ℚ) : OrbitBase :=
  { o with altitude_apogee := v }

/-- Planar 3-vector of real components (km or km/s). -/
structure Vec3 where
  x : ℝ
  y : ℝ
  z : ℝ

/-- Trajectory sample point (trajectory_base.py, class Point).  `time` holds
the elapsed duration in hours that the source interpolates into the label
string. -/
structure Point where
  time : ℝ
  position : Vec3
  velocity : Vec3

/-- Trajectory result object (trajectory_base.py, class Trajectory).  The
delta-v values are km/s, the time of flight is hours.  The generated-id,
name and transfer-type bookkeeping fields are not part of the computation
and are not modelled. -/
structure Trajectory where
  delta_v1 : ℝ
  delta_v2 : ℝ
  time_of_flight : ℝ
  points : List Point
  initial_orbit_id : ℕ
  target_orbit_id : ℕ

/-- Absolute value on the rational scalars, written out so that it reduces
by computation. -/
def ratAbs (q : ℚ) : ℚ := if q < 0 then -q else q

/-- The comparison `np.isclose(a, b, atol=1e-3)` used by the identical-orbit
check: numpy evaluates `abs(a - b) <= atol + rtol * abs(b)` with the default
relative tolerance `rtol = 1e-5`. -/
def isclose (a b : ℚ) : Bool :=
  ratAbs (a - b) ≤ 1 / 1000 + (1 / 100000) * ratAbs b

/-- Transfer radii selection (calculate_transfer.py, lines 24-30): `r1` is
the perigee altitude of the initial orbit; `r2` is the apogee altitude of
the target orbit when the transfer goes to a higher orbit
(`initial.altitude_perigee <= target.altitude_perigee`) and the perigee
altitude of the target orbit otherwise. -/
def transferRadii (initial_orbit target_orbit : OrbitBase) : ℚ × ℚ :=
  if initial_orbit.altitude_perigee ≤ target_orbit.altitude_perigee then
    (initial_orbit.altitude_perigee, target_orbit.altitude_apogee)
  else
    (initial_orbit.altitude_perigee, target_orbit.altitude_perigee)

/-- Semi-major axis of the transfer ellipse: `a_transfer = (r1 + r2) / 2`. -/
noncomputable def aTransfer (r1 r2 : ℝ) : ℝ := (r1 + r2) / 2

/-- Circular velocity on the initial orbit: `(mu / r1)**(1/2)`. -/
noncomputable def v1_initial (mu r1 : ℝ) : ℝ := Real.sqrt (mu / r1)

/-- Velocity at periapsis of the transfer orbit:
`((2 * mu / r1) - (mu / a_transfer))**(1/2)`. -/
noncomputable def v1_transfer (mu r1 a : ℝ) : ℝ := Real.sqrt (2 * mu / r1 - mu / a)

/-- Velocity at apoapsis of the transfer orbit:
`((2 * mu / r2) - (mu / a_transfer))**(1/2)`. -/
noncomputable def v2_transfer (mu r2 a : ℝ) : ℝ := Real.sqrt (2 * mu / r2 - mu / a)

/-- Circular velocity on the target orbit: `(mu / r2)**(1/2)`. -/
noncomputable def v2_final (mu r2 : ℝ) : ℝ := Real.sqrt (mu / r2)

/-- First impulse: `delta_v1 = v1_transfer - v1_initial` (km/s, sign kept). -/
noncomputable def deltaV1 (mu r1 r2 : ℝ) : ℝ :=
  v1_transfer mu r1 (aTransfer r1 r2) - v1_initial mu r1

/-- Second impulse: `delta_v2 = v2_final - v2_transfer` (km/s, sign kept). -/
noncomputable def deltaV2 (mu r1 r2 : ℝ) : ℝ :=
  v2_final mu r2 - v2_transfer mu r2 (aTransfer r1 r2)

/-- Time of flight, converted to hours:
`(np.pi * (a_transfer**3 / mu)**(1/2)).to(u.hour)` - the radicand is in
squared seconds, so the hour value divides the second value by 3600. -/
noncomputable def tofHours (mu r1 r2 : ℝ) : ℝ :=
  Real.pi * Real.sqrt ((aTransfer r1 r2) ^ 3 / mu) / 3600

/-- One iteration of the sampling loop (calculate_transfer.py, lines 64-78)
at loop index `i` with `sample_value = sv`: true anomaly
`theta = pi * i / sample_value`, conic radius, planar position, vis-viva
speed and tangential velocity. -/
noncomputable def samplePoint (mu r1 r2 : ℝ) (sv : ℤ) (i : ℕ) : Point :=
  let theta : ℝ := Real.pi * i / (sv : ℝ)
  let e : ℝ := (r2 - r1) / (r1 + r2)
  let r : ℝ := aTransfer r1 r2 * (1 - e ^ 2) / (1 + e * Real.cos theta)
  let v : ℝ := Real.sqrt (2 * mu / r - mu / aTransfer r1 r2)
  { time := tofHours mu r1 r2 * i / (sv : ℝ)
  , position := { x := r * Real.cos theta, y := r * Real.sin theta, z := 0 }
  , velocity := { x := -v * Real.sin theta, y := v * Real.cos theta, z := 0 } }

/-- The point list built by `for i in range(sample_value + 1)`: for a
negative `sample_value` the Python range is empty, which `Int.toNat`
reproduces. -/
noncomputable def samplePoints (mu r1 r2 : ℝ) (sv : ℤ) : List Point :=
  (List.range (sv + 1).toNat).map (samplePoint mu r1 r2 sv)

/-- Core transfer computation `func_calculate_transfer`
(src/utils/hohmann/func/calculate_transfer.py).  Control flow of the source:

* if both perigee altitudes and both apogee altitudes are `np.isclose`
  (atol 1e-3), return the zero trajectory with no points before any
  velocity computation or sampling happens;
* otherwise, when `sample_value = 0` the first loop iteration evaluates
  `np.pi * 0 / 0`, the resulting ZeroDivisionError is caught by the
  catch-all `except Exception` clause and re-raised as a RuntimeError
  (the generic transfer-computation error of the spec taxonomy);
* otherwise the trajectory carries the two impulses, the time of flight in
  hours and the sampled point list. -/
noncomputable def func_calculate_transfer (initial_orbit target_orbit : OrbitBase)
    (sample_value : ℤ) : Except SpecError Trajectory :=
  let mu : ℝ := (initial_orbit.central_body.mu : ℝ)
  let r1 : ℝ := ((transferRadii initial_orbit target_orbit).1 : ℝ)
  let r2 : ℝ := ((transferRadii initial_orbit target_orbit).2 : ℝ)
  if isclose initial_orbit.altitude_perigee target_orbit.altitude_perigee &&
      isclose initial_orbit.altitude_apogee target_orbit.altitude_apogee then
    .ok { delta_v1 := 0, delta_v2 := 0, time_of_flight := 0, points := []
        , initial_orbit_id := initial_orbit.id, target_orbit_id := target_orbit.id }
  else if sample_value = 0 then
    .error .transferComputation
  else
    .ok { delta_v1 := deltaV1 mu r1 r2
        , delta_v2 := deltaV2 mu r1 r2
        , time_of_flight := tofHours mu r1 r2
        , points := samplePoints mu r1 r2 sample_value
        , initial_orbit_id := initial_orbit.id
        , target_orbit_id := target_orbit.id }

/-- Wrapper `HohmannTransfer.calculate_transfer`
(src/utils/hohmann/hohmann_transfer.py, lines 55-76): before delegating to
`func_calculate_transfer` it checks `initial_orbit.inclination !=
target_orbit.inclination` (exact scalar equality) and raises a ValueError -
the IncompatiblePlaneError of the spec taxonomy - when the inclinations
differ, so no part of the transfer computation runs in that case. -/
noncomputable def HohmannTransfer.calculate_transfer
    (initial_orbit target_orbit : OrbitBase) (sample_value : ℤ) :
    Except SpecError Trajectory :=
  if initial_orbit.inclination ≠ target_orbit.inclination then
    .error .incompatiblePlane
  else
    func_calculate_transfer initial_orbit target_orbit sample_value

/-- Euclidean norm of a sampled position (km), the distance from the
central body at the focus of the planar parametrization. -/
noncomputable def norm3 (v : Vec3) : ℝ := Real.sqrt (v.x ^ 2 + v.y ^ 2 + v.z ^ 2)

/-- Earth gravitational parameter as a real scalar, mu = 398600.4418. -/
noncomputable def muE : ℝ := (earth.mu : ℝ)

/-- Scenario A initial orbit: circular with both altitude fields 500 km,
inclination 0 (the value `OrbitBase(500, 500, 0)` constructs). -/
def leoA : OrbitBase :=
  { altitude_perigee := 500, altitude_apogee := 500, inclination := 0
  , raan := 0, argp := 0, nu := 0, central_body := earth, id := 1
  , semi_major_axis := 500, eccentricity := 0 }

/-- Scenario A target orbit: perigee field 500 km, apogee field 35786 km,
inclination 0 (the value `OrbitBase(500, 35786, 0)` constructs). -/
def geoA : OrbitBase :=
  { altitude_perigee := 500, altitude_apogee := 35786, inclination := 0
  , raan := 0, argp := 0, nu := 0, central_body := earth, id := 2
  , semi_major_axis := 18143, eccentricity := 35286 / 36286 }

/-- De-orbit scenario initial orbit: circular with both altitude fields
500 km, inclination 28.5 degrees. -/
def leoD : OrbitBase :=
  { altitude_perigee := 500, altitude_apogee := 500, inclination := 57 / 2
  , raan := 0, argp := 0, nu := 0, central_body := earth, id := 3
  , semi_major_axis := 500, eccentricity := 0 }

/-- De-orbit scenario target orbit: perigee field 100 km, apogee field
500 km, inclination 28.5 degrees. -/
def reentryD : OrbitBase :=
  { altitude_perigee := 100, altitude_apogee := 500, inclination := 57 / 2
  , raan := 0, argp := 0, nu := 0, central_body := earth, id := 4
  , semi_major_axis := 300, eccentricity := 400 / 600 }

/-- Inclined orbit used by the coplanarity-check scenario: inclination 45
degrees. -/
def inclined45 : OrbitBase :=
  { altitude_perigee := 500, altitude_apogee := 600, inclination := 45
  , raan := 0, argp := 0, nu := 0, central_body := earth, id := 5
  , semi_major_axis := 550, eccentricity := 100 / 1100 }

/-- The trajectory `func_calculate_transfer` builds for scenario A
(radii r1 = 500, r2 = 35786, default sample count 100). -/
noncomputable def trajA : Trajectory :=
  { delta_v1 := deltaV1 muE 500 35786
  , delta_v2 := deltaV2 muE 500 35786
  , time_of_flight := tofHours muE 500 35786
  , points := samplePoints muE 500 35786 100
  , initial_orbit_id := 1, target_orbit_id := 2 }

/-- The trajectory `func_calculate_transfer` builds for the de-orbit pair
when called with the negative sample count -1: the sampling loop
`for i in range(0)` is empty, so the point list is empty. -/
noncomputable def trajD : Trajectory :=
  { delta_v1 := deltaV1 muE 500 100
  , delta_v2 := deltaV2 muE 500 100
  , time_of_flight := tofHours muE 500 100
  , points := []
  , initial_orbit_id := 3, target_orbit_id := 4 }

/-- Orbit constructed by `OrbitBase(6878, 46378, 28.5, raan=50, argp=45,
nu=10)`, the fixture of the repository test
tests/schemas/orbits/test_orbit_base.py. -/
def orbitT : OrbitBase :=
  { altitude_perigee := 6878, altitude_apogee := 46378, inclination := 57 / 2
  , raan := 50, argp := 45, nu := 10, central_body := earth, id := 42
  , semi_major_axis := 26628, eccentricity := 39500 / 53256 }

/-- The computational absolute value agrees with the order-theoretic one. -/
theorem ratAbs_eq_abs (q : ℚ) : ratAbs q = |q| := by
  unfold ratAbs
  split
  · rw [abs_of_neg]
    assumption
  · rw [abs_of_nonneg]
    exact le_of_not_lt (by assumption)

/-- The first impulse is strictly positive on a strictly outbound transfer. -/
theorem deltaV1_pos_of_lt (mu r1 r2 : ℝ) (hmu : 0 < mu) (h1 : 0 < r1)
    (h2 : 0 < r2) (h : r1 < r2) : 0 < deltaV1 mu r1 r2 := by
  unfold deltaV1 v1_transfer v1_initial aTransfer
  have ha : 0 < (r1 + r2) / 2 := by linarith
  have hlt : mu / ((r1 + r2) / 2) < mu / r1 :=
    div_lt_div_of_pos_left hmu h1 (by linarith)
  have htwo : 2 * mu / r1 = mu / r1 + mu / r1 := by ring
  have key : mu / r1 < 2 * mu / r1 - mu / ((r1 + r2) / 2) := by linarith
  have := Real.sqrt_lt_sqrt (by positivity) key
  linarith

/-- The second impulse is strictly positive on a strictly outbound
transfer. -/
theorem deltaV2_pos_of_lt (mu r1 r2 : ℝ) (hmu : 0 < mu) (h1 : 0 < r1)
    (h2 : 0 < r2) (h : r1 < r2) : 0 < deltaV2 mu r1 r2 := by
  unfold deltaV2 v2_transfer v2_final aTransfer
  have ha : 0 < (r1 + r2) / 2 := by linarith
  have hlt : mu / r2 < mu / ((r1 + r2) / 2) :=
    div_lt_div_of_pos_left hmu ha (by linarith)
  have htwo : 2 * mu / r2 = mu / r2 + mu / r2 := by ring
  have key : 2 * mu / r2 - mu / ((r1 + r2) / 2) < mu / r2 := by linarith
  have hrad : 2 * mu / r2 - mu / ((r1 + r2) / 2) = 2 * mu * r1 / (r2 * (r1 + r2)) := by
    field_simp
    ring
  have key0 : 0 ≤ 2 * mu / r2 - mu / ((r1 + r2) / 2) := by
    rw [hrad]; positivity
  have := Real.sqrt_lt_sqrt key0 key
  linarith

/-- The first impulse is strictly negative on a strictly inbound transfer. -/
theorem deltaV1_neg_of_gt (mu r1 r2 : ℝ) (hmu : 0 < mu) (h1 : 0 < r1)
    (h2 : 0 < r2) (h : r2 < r1) : deltaV1 mu r1 r2 < 0 := by
  unfold deltaV1 v1_transfer v1_initial aTransfer
  have ha : 0 < (r1 + r2) / 2 := by linarith
  have hlt : mu / r1 < mu / ((r1 + r2) / 2) :=
    div_lt_div_of_pos_left hmu ha (by linarith)
  have htwo : 2 * mu / r1 = mu / r1 + mu / r1 := by ring
  have key : 2 * mu / r1 - mu / ((r1 + r2) / 2) < mu / r1 := by linarith
  have hrad : 2 * mu / r1 - mu / ((r1 + r2) / 2) = 2 * mu * r2 / (r1 * (r1 + r2)) := by
    field_simp
    ring
  have key0 : 0 ≤ 2 * mu / r1 - mu / ((r1 + r2) / 2) := by
    rw [hrad]; positivity
  have := Real.sqrt_lt_sqrt key0 key
  linarith

/-- The second impulse is strictly negative on a strictly inbound
transfer. -/
theorem deltaV2_neg_of_gt (mu r1 r2 : ℝ) (hmu : 0 < mu) (h1 : 0 < r1)
    (h2 : 0 < r2) (h : r2 < r1) : deltaV2 mu r1 r2 < 0 := by
  unfold deltaV2 v2_transfer v2_final aTransfer
  have ha : 0 < (r1 + r2) / 2 := by linarith
  have hlt : mu / ((r1 + r2) / 2) < mu / r2 :=
    div_lt_div_of_pos_left hmu h2 (by linarith)
  have htwo : 2 * mu / r2 = mu / r2 + mu / r2 := by ring
  have key : mu / r2 < 2 * mu / r2 - mu / ((r1 + r2) / 2) := by linarith
  have := Real.sqrt_lt_sqrt (by positivity : (0:ℝ) ≤ mu / r2) key
  linarith

/-- C1: for every pair of orbits given to the Hohmann transfer computation,
the selected radii satisfy r1 = initial.altitude_perigee always, and
r2 = target.altitude_apogee when initial.altitude_perigee <=
target.altitude_perigee (outbound transfer), otherwise
r2 = target.altitude_perigee (inbound transfer). -/
theorem claim_C1_transfer_radii_selection (i t : OrbitBase) :
    (transferRadii i t).1 = i.altitude_perigee ∧
    (i.altitude_perigee ≤ t.altitude_perigee →
      (transferRadii i t).2 = t.altitude_apogee) ∧
    (¬ i.altitude_perigee ≤ t.altitude_perigee →
      (transferRadii i t).2 = t.altitude_perigee) := by
  unfold transferRadii
  by_cases h : i.altitude_perigee ≤ t.altitude_perigee <;> simp [h]

/-- Witness for C1: the outbound pair (leoA, geoA) selects the target
apogee, the inbound pair (leoD, reentryD) selects the target perigee. -/
theorem claim_C1_transfer_radii_selection_witness :
    (leoA.altitude_perigee ≤ geoA.altitude_perigee ∧
      (transferRadii leoA geoA).2 = geoA.altitude_apogee) ∧
    (¬ leoD.altitude_perigee ≤ reentryD.altitude_perigee ∧
      (transferRadii leoD reentryD).2 = reentryD.altitude_perigee) :=
  ⟨⟨by norm_num [leoA, geoA],
    (claim_C1_transfer_radii_selection leoA geoA).2.1 (by norm_num [leoA, geoA])⟩,
   ⟨by norm_num [leoD, reentryD],
    (claim_C1_transfer_radii_selection leoD reentryD).2.2
      (by norm_num [leoD, reentryD])⟩⟩

/-- C2: for every central body with positive mu and every two orbits whose
perigee altitudes and apogee altitudes each agree within an absolute
tolerance of 1e-3 km, the transfer computation short-circuits to the zero
trajectory: both impulses 0, time of flight 0, empty point list (so no
sampling happens), for every sample count. -/
theorem claim_C2_identical_orbit_short_circuit (i t : OrbitBase) (sv : ℤ)
    (hmu : 0 < i.central_body.mu)
    (hp : |i.altitude_perigee - t.altitude_perigee| ≤ 1 / 1000)
    (ha : |i.altitude_apogee - t.altitude_apogee| ≤ 1 / 1000) :
    func_calculate_transfer i t sv =
      .ok { delta_v1 := 0, delta_v2 := 0, time_of_flight := 0, points := []
          , initial_orbit_id := i.id, target_orbit_id := t.id } := by
  have h1 : isclose i.altitude_perigee t.altitude_perigee = true := by
    simp only [isclose, ratAbs_eq_abs, decide_eq_true_eq]
    have := abs_nonneg t.altitude_perigee
    linarith
  have h2 : isclose i.altitude_apogee t.altitude_apogee = true := by
    simp only [isclose, ratAbs_eq_abs, decide_eq_true_eq]
    have := abs_nonneg t.altitude_apogee
    linarith
  simp [func_calculate_transfer, h1, h2]

/-- Witness for C2: two copies of the circular 500 km orbit produce the
zero trajectory with no points. -/
theorem claim_C2_identical_orbit_short_circuit_witness :
    (0 : ℚ) < leoA.central_body.mu ∧
    func_calculate_transfer leoA leoA 5 =
      .ok { delta_v1 := 0, delta_v2 := 0, time_of_flight := 0, points := []
          , initial_orbit_id := 1, target_orbit_id := 1 } :=
  ⟨by norm_num [leoA, earth],
   by simpa [leoA] using
     claim_C2_identical_orbit_short_circuit leoA leoA 5
       (by norm_num [leoA, earth]) (by norm_num) (by norm_num)⟩

/-- C3: for every valid transfer (positive mu and positive selected radii)
with r1 < r2 (outbound), both computed impulses are non-negative; with
r2 < r1 (inbound/de-orbit), both impulses are non-positive - the signs are
preserved rather than taken as absolute values. -/
theorem claim_C3_impulse_signs (mu r1 r2 : ℝ) (hmu : 0 < mu) (h1 : 0 < r1)
    (h2 : 0 < r2) :
    (r1 < r2 → 0 ≤ deltaV1 mu r1 r2 ∧ 0 ≤ deltaV2 mu r1 r2) ∧
    (r2 < r1 → deltaV1 mu r1 r2 ≤ 0 ∧ deltaV2 mu r1 r2 ≤ 0) :=
  ⟨fun h => ⟨(deltaV1_pos_of_lt mu r1 r2 hmu h1 h2 h).le,
             (deltaV2_pos_of_lt mu r1 r2 hmu h1 h2 h).le⟩,
   fun h => ⟨(deltaV1_neg_of_gt mu r1 r2 hmu h1 h2 h).le,
             (deltaV2_neg_of_gt mu r1 r2 hmu h1 h2 h).le⟩⟩

/-- Witness for C3: outbound radii (1, 2) give non-negative impulses,
inbound radii (2, 1) give non-positive impulses (mu = 1). -/
theorem claim_C3_impulse_signs_witness :
    ((1 : ℝ) < 2 ∧ 0 ≤ deltaV1 1 1 2 ∧ 0 ≤ deltaV2 1 1 2) ∧
    ((1 : ℝ) < 2 ∧ deltaV1 1 2 1 ≤ 0 ∧ deltaV2 1 2 1 ≤ 0) :=
  ⟨⟨by norm_num,
    (claim_C3_impulse_signs 1 1 2 (by norm_num) (by norm_num) (by norm_num)).1
      (by norm_num)⟩,
   ⟨by norm_num,
    (claim_C3_impulse_signs 1 2 1 (by norm_num) (by norm_num) (by norm_num)).2
      (by norm_num)⟩⟩

/-- C4: for every pair of orbits whose inclinations differ, the Hohmann
transfer wrapper fails with the plane-incompatibility error of the spec
taxonomy (exact-match inclination check); the result is only the error, so
no delta-v, time of flight or point of the transfer is computed. -/
theorem claim_C4_incompatible_plane (i t : OrbitBase) (sv : ℤ)
    (h : i.inclination ≠ t.inclination) :
    HohmannTransfer.calculate_transfer i t sv = .error .incompatiblePlane := by
  simp [HohmannTransfer.calculate_transfer, h]

/-- Witness for C4: inclination 0 against inclination 45 degrees. -/
theorem claim_C4_incompatible_plane_witness :
    leoA.inclination ≠ inclined45.inclination ∧
    HohmannTransfer.calculate_transfer leoA inclined45 100 =
      .error .incompatiblePlane :=
  ⟨by norm_num [leoA, inclined45],
   claim_C4_incompatible_plane leoA inclined45 100
     (by norm_num [leoA, inclined45])⟩

/-- Rewriting one sampling iteration at an integer sample count that comes
from a natural number: the two coercion paths to the reals agree. -/
theorem samplePoint_natCast (mu r1 r2 : ℝ) (N i : ℕ) :
    samplePoint mu r1 r2 (N : ℤ) i =
      { time := tofHours mu r1 r2 * i / (N : ℝ)
      , position :=
          { x := aTransfer r1 r2 * (1 - ((r2 - r1) / (r1 + r2)) ^ 2) /
                  (1 + ((r2 - r1) / (r1 + r2)) * Real.cos (Real.pi * i / (N : ℝ))) *
                Real.cos (Real.pi * i / (N : ℝ))
          , y := aTransfer r1 r2 * (1 - ((r2 - r1) / (r1 + r2)) ^ 2) /
                  (1 + ((r2 - r1) / (r1 + r2)) * Real.cos (Real.pi * i / (N : ℝ))) *
                Real.sin (Real.pi * i / (N : ℝ))
          , z := 0 }
      , velocity :=
          { x := -Real.sqrt (2 * mu /
                    (aTransfer r1 r2 * (1 - ((r2 - r1) / (r1 + r2)) ^ 2) /
                      (1 + ((r2 - r1) / (r1 + r2)) *
                        Real.cos (Real.pi * i / (N : ℝ)))) -
                    mu / aTransfer r1 r2) *
                Real.sin (Real.pi * i / (N : ℝ))
          , y := Real.sqrt (2 * mu /
                    (aTransfer r1 r2 * (1 - ((r2 - r1) / (r1 + r2)) ^ 2) /
                      (1 + ((r2 - r1) / (r1 + r2)) *
                        Real.cos (Real.pi * i / (N : ℝ)))) -
                    mu / aTransfer r1 r2) *
                Real.cos (Real.pi * i / (N : ℝ))
          , z := 0 } } := by
  simp [samplePoint]

/-- C5: for every sample count N >= 1 the sampler emits exactly N + 1
points, and for each index i in 0..N inclusive the point has true anomaly
theta = pi * i / N, conic radius
r = a_transfer * (1 - e^2) / (1 + e * cos theta) with
e = (r2 - r1) / (r1 + r2), position (r cos theta, r sin theta, 0),
vis-viva speed v = sqrt(2 mu / r - mu / a_transfer), velocity
(-v sin theta, v cos theta, 0) and elapsed-time label
time_of_flight * i / N. -/
theorem claim_C5_sampler_points (mu r1 r2 : ℝ) (N : ℕ) (hN : 1 ≤ N) :
    (samplePoints mu r1 r2 (N : ℤ)).length = N + 1 ∧
    ∀ i : ℕ, i ≤ N →
      (samplePoints mu r1 r2 (N : ℤ))[i]? =
        some { time := tofHours mu r1 r2 * i / (N : ℝ)
             , position :=
                { x := aTransfer r1 r2 * (1 - ((r2 - r1) / (r1 + r2)) ^ 2) /
                        (1 + ((r2 - r1) / (r1 + r2)) *
                          Real.cos (Real.pi * i / (N : ℝ))) *
                      Real.cos (Real.pi * i / (N : ℝ))
                , y := aTransfer r1 r2 * (1 - ((r2 - r1) / (r1 + r2)) ^ 2) /
                        (1 + ((r2 - r1) / (r1 + r2)) *
                          Real.cos (Real.pi * i / (N : ℝ))) *
                      Real.sin (Real.pi * i / (N : ℝ))
                , z := 0 }
             , velocity :=
                { x := -Real.sqrt (2 * mu /
                          (aTransfer r1 r2 * (1 - ((r2 - r1) / (r1 + r2)) ^ 2) /
                            (1 + ((r2 - r1) / (r1 + r2)) *
                              Real.cos (Real.pi * i / (N : ℝ)))) -
                          mu / aTransfer r1 r2) *
                      Real.sin (Real.pi * i / (N : ℝ))
                , y := Real.sqrt (2 * mu /
                          (aTransfer r1 r2 * (1 - ((r2 - r1) / (r1 + r2)) ^ 2) /
                            (1 + ((r2 - r1) / (r1 + r2)) *
                              Real.cos (Real.pi * i / (N : ℝ)))) -
                          mu / aTransfer r1 r2) *
                      Real.cos (Real.pi * i / (N : ℝ))
                , z := 0 } } := by
  have htn : ((N : ℤ) + 1).toNat = N + 1 := by omega
  constructor
  · simp [samplePoints, htn]
  · intro i hi
    have hlt : i < ((N : ℤ) + 1).toNat := by omega
    rw [samplePoints, List.getElem?_map, List.getElem?_range hlt,
      Option.map_some', samplePoint_natCast]

/-- Witness for C5: sample count 2 gives three points; the middle point
(index 1) matches the sampling formulas at theta = pi / 2. -/
theorem claim_C5_sampler_points_witness :
    (1 ≤ 2 ∧ (samplePoints 1 1 3 (2 : ℤ)).length = 2 + 1) ∧
    (samplePoints 1 1 3 (2 : ℤ))[1]? =
      some { time := tofHours 1 1 3 * 1 / ((2 : ℕ) : ℝ)
           , position :=
              { x := aTransfer 1 3 * (1 - ((3 - 1) / (1 + 3)) ^ 2) /
                      (1 + ((3 - 1) / (1 + 3)) *
        Real.cos (Real.pi * 1 / ((2 : ℕ) : ℝ))) *
                    Real.cos (Real.pi * 1 / ((2 : ℕ) : ℝ))
              , y := aTransfer 1 3 * (1 - ((3 - 1) / (1 + 3)) ^ 2) /
                      (1 + ((3 - 1) / (1 + 3)) *
        Real.cos (Real.pi * 1 / ((2 : ℕ) : ℝ))) *
                    Real.sin (Real.pi * 1 / ((2 : ℕ) : ℝ))
              , z := 0 }
           , velocity :=
              { x := -Real.sqrt (2 * 1 /
                        (aTransfer 1 3 * (1 - ((3 - 1) / (1 + 3)) ^ 2) /
                          (1 + ((3 - 1) / (1 + 3)) *
        Real.cos (Real.pi * 1 / ((2 : ℕ) : ℝ)))) -
                        1 / aTransfer 1 3) *
                    Real.sin (Real.pi * 1 / ((2 : ℕ) : ℝ))
              , y := Real.sqrt (2 * 1 /
                        (aTransfer 1 3 * (1 - ((3 - 1) / (1 + 3)) ^ 2) /
                          (1 + ((3 - 1) / (1 + 3)) *
        Real.cos (Real.pi * 1 / ((2 : ℕ) : ℝ)))) -
                        1 / aTransfer 1 3) *
                    Real.cos (Real.pi * 1 / ((2 : ℕ) : ℝ))
              , z := 0 } } := by
  refine ⟨⟨by norm_num, ?_⟩, ?_⟩
  · exact (claim_C5_sampler_points 1 1 3 2 (by norm_num)).1
  · have h := (claim_C5_sampler_points 1 1 3 2 (by norm_num)).2 1 (by norm_num)
    simpa using h

/-- Conic radius of the sampled transfer ellipse at true anomaly 0: it is
exactly the departure radius r1. -/
theorem conic_radius_at_zero (r1 r2 : ℝ) (h1 : 0 < r1) (h2 : 0 < r2) :
    aTransfer r1 r2 * (1 - ((r2 - r1) / (r1 + r2)) ^ 2) /
      (1 + (r2 - r1) / (r1 + r2)) = r1 := by
  have hsum : (0 : ℝ) < r1 + r2 := by linarith
  have hne0 : r1 + r2 ≠ 0 := hsum.ne'
  have hden : 1 + (r2 - r1) / (r1 + r2) = 2 * r2 / (r1 + r2) := by
    field_simp
    ring
  have hdenne : 1 + (r2 - r1) / (r1 + r2) ≠ 0 := by
    rw [hden]
    positivity
  rw [div_eq_iff hdenne, hden, aTransfer]
  field_simp
  ring

/-- Conic radius of the sampled transfer ellipse at true anomaly pi: it is
exactly the arrival radius r2. -/
theorem conic_radius_at_pi (r1 r2 : ℝ) (h1 : 0 < r1) (h2 : 0 < r2) :
    aTransfer r1 r2 * (1 - ((r2 - r1) / (r1 + r2)) ^ 2) /
      (1 + (r2 - r1) / (r1 + r2) * Real.cos Real.pi) = r2 := by
  have hsum : (0 : ℝ) < r1 + r2 := by linarith
  have hden : 1 + (r2 - r1) / (r1 + r2) * (-1) = 2 * r1 / (r1 + r2) := by
    field_simp
    ring
  have hdenne : 1 + (r2 - r1) / (r1 + r2) * (-1) ≠ 0 := by
    rw [hden]
    positivity
  rw [Real.cos_pi]
  rw [div_eq_iff hdenne, hden, aTransfer]
  field_simp
  ring

/-- C10: for every transfer with positive radii and sample count N >= 1,
under exact real arithmetic the first sampled point (theta = 0) lies at
distance exactly r1 from the central body and the last sampled point
(theta = pi) at distance exactly r2: the sampled half-ellipse is tangent
to the departure circle at periapsis and to the arrival circle at
apoapsis. -/
theorem claim_C10_endpoint_tangency (mu r1 r2 : ℝ) (N : ℕ) (h1 : 0 < r1)
    (h2 : 0 < r2) (hne : r1 ≠ r2) (hN : 1 ≤ N) :
    Option.map (fun p => norm3 p.position)
      (samplePoints mu r1 r2 (N : ℤ))[0]? = some r1 ∧
    Option.map (fun p => norm3 p.position)
      (samplePoints mu r1 r2 (N : ℤ))[N]? = some r2 := by
  have hN0 : ((N : ℝ)) ≠ 0 := Nat.cast_ne_zero.mpr (by omega)
  have h0lt : 0 < ((N : ℤ) + 1).toNat := by omega
  have hNlt : N < ((N : ℤ) + 1).toNat := by omega
  constructor
  · rw [samplePoints, List.getElem?_map, List.getElem?_range h0lt,
      Option.map_some', Option.map_some', samplePoint_natCast]
    have hth : Real.pi * ((0 : ℕ) : ℝ) / (N : ℝ) = 0 := by simp
    simp only [hth, Real.cos_zero, Real.sin_zero, mul_one, mul_zero, norm3]
    rw [conic_radius_at_zero r1 r2 h1 h2]
    have hsq : r1 ^ 2 + 0 ^ 2 + 0 ^ 2 = r1 ^ 2 := by ring
    rw [hsq, Real.sqrt_sq h1.le]
  · rw [samplePoints, List.getElem?_map, List.getElem?_range hNlt,
      Option.map_some', Option.map_some', samplePoint_natCast]
    have hth : Real.pi * (N : ℝ) / (N : ℝ) = Real.pi := by
      rw [mul_div_assoc, div_self hN0, mul_one]
    simp only [hth, Real.cos_pi, Real.sin_pi, mul_zero, norm3]
    have hr : aTransfer r1 r2 * (1 - ((r2 - r1) / (r1 + r2)) ^ 2) /
        (1 + (r2 - r1) / (r1 + r2) * Real.cos Real.pi) = r2 :=
      conic_radius_at_pi r1 r2 h1 h2
    rw [Real.cos_pi] at hr
    rw [hr]
    have : (r2 * -1) ^ 2 + 0 ^ 2 + 0 ^ 2 = r2 ^ 2 := by ring
    rw [this, Real.sqrt_sq h2.le]

/-- Witness for C10: radii 1 and 2, one sample interval: the first point is
at distance 1, the last at distance 2. -/
theorem claim_C10_endpoint_tangency_witness :
    ((0 : ℝ) < 1 ∧ (0 : ℝ) < 2 ∧ (1 : ℝ) ≠ 2) ∧
    Option.map (fun p => norm3 p.position)
      (samplePoints 1 1 2 ((1 : ℕ) : ℤ))[0]? = some 1 ∧
    Option.map (fun p => norm3 p.position)
      (samplePoints 1 1 2 ((1 : ℕ) : ℤ))[(1 : ℕ)]? = some 2 :=
  ⟨⟨by norm_num, by norm_num, by norm_num⟩,
   claim_C10_endpoint_tangency 1 1 2 1 (by norm_num) (by norm_num)
     (by norm_num) (by norm_num)⟩

/-- On the non-identical path with a nonzero sample count,
`func_calculate_transfer` returns the computed trajectory. -/
theorem func_calculate_transfer_ok (i t : OrbitBase) (sv : ℤ)
    (hc : (isclose i.altitude_perigee t.altitude_perigee &&
        isclose i.altitude_apogee t.altitude_apogee) = false)
    (hsv : sv ≠ 0) :
    func_calculate_transfer i t sv =
      .ok { delta_v1 := deltaV1 (i.central_body.mu : ℝ)
              ((transferRadii i t).1 : ℝ) ((transferRadii i t).2 : ℝ)
          , delta_v2 := deltaV2 (i.central_body.mu : ℝ)
              ((transferRadii i t).1 : ℝ) ((transferRadii i t).2 : ℝ)
          , time_of_flight := tofHours (i.central_body.mu : ℝ)
              ((transferRadii i t).1 : ℝ) ((transferRadii i t).2 : ℝ)
          , points := samplePoints (i.central_body.mu : ℝ)
              ((transferRadii i t).1 : ℝ) ((transferRadii i t).2 : ℝ) sv
          , initial_orbit_id := i.id
          , target_orbit_id := t.id } := by
  simp [func_calculate_transfer, hc, hsv]

/-- The de-orbit pair is not identical for the `np.isclose` check: the
perigee altitudes 500 and 100 differ by far more than the tolerance. -/
theorem isclose_false_leoD_reentryD :
    (isclose leoD.altitude_perigee reentryD.altitude_perigee &&
      isclose leoD.altitude_apogee reentryD.altitude_apogee) = false := by
  have h : isclose leoD.altitude_perigee reentryD.altitude_perigee = false := by
    simp only [leoD, reentryD]
    simp only [isclose, ratAbs_eq_abs, decide_eq_false_iff_not, not_le]
    rw [abs_of_nonneg (by norm_num : (0 : ℚ) ≤ (100 : ℚ)),
      abs_of_nonneg (by norm_num : (0 : ℚ) ≤ (500 : ℚ) - 100)]
    norm_num
  rw [h, Bool.false_and]

/-- The scenario A pair is not identical for the `np.isclose` check: the
apogee altitudes 500 and 35786 differ by far more than the tolerance. -/
theorem isclose_false_leoA_geoA :
    (isclose leoA.altitude_perigee geoA.altitude_perigee &&
      isclose leoA.altitude_apogee geoA.altitude_apogee) = false := by
  have h : isclose leoA.altitude_apogee geoA.altitude_apogee = false := by
    simp only [leoA, geoA]
    simp only [isclose, ratAbs_eq_abs, decide_eq_false_iff_not, not_le]
    rw [abs_of_nonneg (by norm_num : (0 : ℚ) ≤ (35786 : ℚ)),
      abs_of_nonpos (by norm_num : (500 : ℚ) - 35786 ≤ 0)]
    norm_num
  rw [h, Bool.and_false]

/-- Counterexample to C6: with the non-identical de-orbit pair and the
negative sample count -1, `func_calculate_transfer` does not fail; it
returns a Trajectory (with an empty point list), because
`for i in range(-1 + 1)` performs no iteration. -/
theorem claim_C6_counterexample :
    func_calculate_transfer leoD reentryD (-1) = .ok trajD := by
  have hr : transferRadii leoD reentryD = (500, 100) := by
    norm_num [transferRadii, leoD, reentryD]
  rw [func_calculate_transfer_ok leoD reentryD (-1) isclose_false_leoD_reentryD
    (by decide), hr]
  have hpts : ∀ mu r1 r2 : ℝ, samplePoints mu r1 r2 (-1) = [] := by
    intro mu r1 r2
    simp [samplePoints]
  norm_num [trajD, muE, leoD, reentryD, earth, hpts]

/-- C6 as amended: for every non-identical pair of orbits, a sample count
of exactly 0 makes the computation fail - with the generic
transfer-computation error produced by the catch-all exception handler
(the ZeroDivisionError of `np.pi * 0 / 0`), not with a dedicated
invalid-sample-count error - while every negative sample count does not
fail at all: the function returns a Trajectory whose point list is
empty. -/
theorem claim_C6_amended (i t : OrbitBase)
    (hc : (isclose i.altitude_perigee t.altitude_perigee &&
        isclose i.altitude_apogee t.altitude_apogee) = false) :
    func_calculate_transfer i t 0 = .error .transferComputation ∧
    ∀ sv : ℤ, sv < 0 →
      func_calculate_transfer i t sv =
        .ok { delta_v1 := deltaV1 (i.central_body.mu : ℝ)
                ((transferRadii i t).1 : ℝ) ((transferRadii i t).2 : ℝ)
            , delta_v2 := deltaV2 (i.central_body.mu : ℝ)
                ((transferRadii i t).1 : ℝ) ((transferRadii i t).2 : ℝ)
            , time_of_flight := tofHours (i.central_body.mu : ℝ)
                ((transferRadii i t).1 : ℝ) ((transferRadii i t).2 : ℝ)
            , points := []
            , initial_orbit_id := i.id
            , target_orbit_id := t.id } := by
  constructor
  · simp [func_calculate_transfer, hc]
  · intro sv hsv
    have hpts : samplePoints (i.central_body.mu : ℝ)
        ((transferRadii i t).1 : ℝ) ((transferRadii i t).2 : ℝ) sv = [] := by
      have h0 : (sv + 1).toNat = 0 := by omega
      simp [samplePoints, h0]
    rw [func_calculate_transfer_ok i t sv hc (by omega), hpts]

/-- Witness for C6 as amended: the de-orbit pair fails at sample count 0
and yields an empty-point Trajectory at sample count -2. -/
theorem claim_C6_amended_witness :
    (isclose leoD.altitude_perigee reentryD.altitude_perigee &&
      isclose leoD.altitude_apogee reentryD.altitude_apogee) = false ∧
    func_calculate_transfer leoD reentryD 0 = .error .transferComputation ∧
    func_calculate_transfer leoD reentryD (-2) =
      .ok { delta_v1 := deltaV1 (leoD.central_body.mu : ℝ)
              ((transferRadii leoD reentryD).1 : ℝ)
              ((transferRadii leoD reentryD).2 : ℝ)
          , delta_v2 := deltaV2 (leoD.central_body.mu : ℝ)
              ((transferRadii leoD reentryD).1 : ℝ)
              ((transferRadii leoD reentryD).2 : ℝ)
          , time_of_flight := tofHours (leoD.central_body.mu : ℝ)
              ((transferRadii leoD reentryD).1 : ℝ)
              ((transferRadii leoD reentryD).2 : ℝ)
          , points := []
          , initial_orbit_id := leoD.id
          , target_orbit_id := reentryD.id } :=
  ⟨isclose_false_leoD_reentryD,
   (claim_C6_amended leoD reentryD isclose_false_leoD_reentryD).1,
   (claim_C6_amended leoD reentryD isclose_false_leoD_reentryD).2 (-2)
     (by decide)⟩

/-- Counterexample to C7: `OrbitBase.__init__` performs no angle
validation, so construction with inclination 200 degrees - outside the
valid domain [0, 180] - succeeds instead of failing. -/
theorem claim_C7_counterexample :
    OrbitBase.create 500 600 200 0 0 0 earth 7 =
      .ok { altitude_perigee := 500, altitude_apogee := 600
          , inclination := 200, raan := 0, argp := 0, nu := 0
          , central_body := earth, id := 7
          , semi_major_axis := 550, eccentricity := 100 / 1100 } := by
  norm_num [OrbitBase.create]

/-- C7 as amended: orbit construction fails with the invalid-orbit
validation error exactly when altitude_perigee > altitude_apogee;
construction with altitude_perigee == altitude_apogee succeeds (circular
orbit), and no angle-domain validation is performed by the constructor
(the angle bounds live only in the out-of-scope API input schema). -/
theorem claim_C7_amended (p a inc raan argp nu : ℚ) (body : Body) (id : ℕ) :
    (a < p → OrbitBase.create p a inc raan argp nu body id =
      .error .invalidOrbit) ∧
    (p ≤ a → OrbitBase.create p a inc raan argp nu body id =
      .ok { altitude_perigee := p, altitude_apogee := a, inclination := inc
          , raan := raan, argp := argp, nu := nu, central_body := body
          , id := id, semi_major_axis := (p + a) / 2
          , eccentricity := (a - p) / (a + p) }) := by
  constructor
  · intro h
    simp [OrbitBase.create, h]
  · intro h
    simp [OrbitBase.create, not_lt.mpr h]

/-- Witness for C7 as amended: equal altitudes (circular orbit) construct
successfully, a perigee above the apogee fails with the validation
error. -/
theorem claim_C7_amended_witness :
    ((700 : ℚ) ≤ 700 ∧ OrbitBase.create 700 700 0 0 0 0 earth 8 =
      .ok { altitude_perigee := 700, altitude_apogee := 700, inclination := 0
          , raan := 0, argp := 0, nu := 0, central_body := earth, id := 8
          , semi_major_axis := (700 + 700) / 2
          , eccentricity := (700 - 700) / (700 + 700) }) ∧
    ((700 : ℚ) < 800 ∧ OrbitBase.create 800 700 0 0 0 0 earth 9 =
      .error .invalidOrbit) :=
  ⟨⟨le_refl 700, (claim_C7_amended 700 700 0 0 0 0 earth 8).2 (le_refl 700)⟩,
   ⟨by norm_num, (claim_C7_amended 800 700 0 0 0 0 earth 9).1 (by norm_num)⟩⟩

/-- C8 is a code bug: the altitude setters do not recompute the derived
fields.  Constructing the repository test fixture
`OrbitBase(6878, 46378, 28.5, raan=50, argp=45, nu=10)` and then assigning
`altitude_apogee = 50000` (the mutation of the repository test
`test_orbit_poliastro_recalculation`) leaves `semi_major_axis` at the
stale value 26628 although the invariant - and the repository test -
require (6878 + 50000) / 2 = 28439, and likewise leaves `eccentricity`
stale. -/
theorem claim_C8_derived_fields_not_recomputed :
    OrbitBase.create 6878 46378 (57 / 2) 50 45 10 earth 42 = .ok orbitT ∧
    (orbitT.set_altitude_apogee 50000).semi_major_axis = 26628 ∧
    ((orbitT.set_altitude_apogee 50000).altitude_perigee +
      (orbitT.set_altitude_apogee 50000).altitude_apogee) / 2 = 28439 ∧
    (orbitT.set_altitude_apogee 50000).eccentricity = 39500 / 53256 ∧
    ((orbitT.set_altitude_apogee 50000).altitude_apogee -
        (orbitT.set_altitude_apogee 50000).altitude_perigee) /
      ((orbitT.set_altitude_apogee 50000).altitude_apogee +
        (orbitT.set_altitude_apogee 50000).altitude_perigee) = 21561 / 28439 ∧
    (26628 : ℚ) ≠ 28439 ∧ (39500 / 53256 : ℚ) ≠ 21561 / 28439 := by
  refine ⟨?_, ?_, ?_, ?_, ?_, by norm_num, by norm_num⟩
  · norm_num [OrbitBase.create, orbitT]
  · norm_num [OrbitBase.set_altitude_apogee, orbitT]
  · norm_num [OrbitBase.set_altitude_apogee, orbitT]
  · norm_num [OrbitBase.set_altitude_apogee, orbitT]
  · norm_num [OrbitBase.set_altitude_apogee, orbitT]

/-- Numeric bounds for the scenario A time of flight: with r1 = 500 and
r2 = 35786 the transfer semi-major axis is 18143 km, and
pi * sqrt(18143^3 / 398600.4418) / 3600 lies strictly between 3.37 and
3.39 hours. -/
theorem tofHours_scenarioA_bounds :
    3.37 < tofHours muE 500 35786 ∧ tofHours muE 500 35786 < 3.39 := by
  have hmu : muE = 3986004418 / 10000 := by
    rw [muE]
    simp only [earth]
    push_cast
    norm_num
  have hQ : (aTransfer (500 : ℝ) 35786) ^ 3 / (3986004418 / 10000 : ℝ) =
      59721031702070000 / 3986004418 := by
    norm_num [aTransfer]
  have hs1 : (3870.74 : ℝ) < Real.sqrt (59721031702070000 / 3986004418) :=
    (Real.lt_sqrt (by norm_num)).mpr (by norm_num)
  have hs2 : Real.sqrt (59721031702070000 / 3986004418 : ℝ) < 3870.75 :=
    (Real.sqrt_lt' (by norm_num)).mpr (by norm_num)
  have hpi1 := Real.pi_gt_d6
  have hpi2 := Real.pi_lt_d6
  unfold tofHours
  rw [hmu, hQ]
  constructor
  · rw [lt_div_iff₀ (by norm_num : (0 : ℝ) < 3600)]
    nlinarith [Real.sqrt_nonneg (59721031702070000 / 3986004418 : ℝ)]
  · rw [div_lt_iff₀ (by norm_num : (0 : ℝ) < 3600)]
    nlinarith [Real.sqrt_nonneg (59721031702070000 / 3986004418 : ℝ)]

/-- On scenario A the transfer function returns exactly the trajectory
`trajA` built from radii 500 and 35786 with 100 sample intervals. -/
theorem func_scenarioA_eq : func_calculate_transfer leoA geoA 100 = .ok trajA := by
  have hr : transferRadii leoA geoA = (500, 35786) := by
    norm_num [transferRadii, leoA, geoA]
  rw [func_calculate_transfer_ok leoA geoA 100 isclose_false_leoA_geoA
    (by decide), hr]
  norm_num [trajA, muE, leoA, geoA, earth]

/-- Counterexample to C9: on the stated scenario (mu = 398600.4418,
altitude fields 500/500 and 500/35786, default sample count 100) the
computed time of flight is below 4 hours, so it is not approximately 5.26
hours; the code treats the altitude fields directly as orbital radii, and
for radii 500 and 35786 km the half-period is about 3.38 hours. -/
theorem claim_C9_counterexample :
    func_calculate_transfer leoA geoA 100 = .ok trajA ∧
    trajA.time_of_flight < 4 := by
  refine ⟨func_scenarioA_eq, ?_⟩
  have h := tofHours_scenarioA_bounds.2
  show tofHours muE 500 35786 < 4
  linarith

/-- C9 as amended: for mu = 398600.4418, an initial orbit with both
altitude fields 500 km (inclination 0) and a target with perigee field
500 km and apogee field 35786 km (inclination 0), the computation returns
delta_v1 > 0, delta_v2 > 0, a time of flight of approximately 3.38 hours
(strictly between 3.37 and 3.39), and exactly 101 points for the default
sample count 100. -/
theorem claim_C9_amended :
    func_calculate_transfer leoA geoA 100 = .ok trajA ∧
    0 < trajA.delta_v1 ∧ 0 < trajA.delta_v2 ∧
    3.37 < trajA.time_of_flight ∧ trajA.time_of_flight < 3.39 ∧
    trajA.points.length = 101 := by
  have hmuE : (0 : ℝ) < muE := by
    rw [muE]
    have h : (0 : ℚ) < earth.mu := by norm_num [earth]
    exact_mod_cast h
  refine ⟨func_scenarioA_eq, ?_, ?_, tofHours_scenarioA_bounds.1,
    tofHours_scenarioA_bounds.2, ?_⟩
  · exact deltaV1_pos_of_lt muE 500 35786 hmuE (by norm_num) (by norm_num)
      (by norm_num)
  · exact deltaV2_pos_of_lt muE 500 35786 hmuE (by norm_num) (by norm_num)
      (by norm_num)
  · show (samplePoints muE 500 35786 100).length = 101
    simp [samplePoints]

end OrbitalTransfer
